import Mathlib

/-!
Verification of the document-ingestion and report-synthesis pipeline of
an AI medical-report analyzer.  The definitions below are a shallow
embedding of `src/app/services/medical_report_service.py`:

* `Json` models the JSON-like patient-record structures the service walks;
* `searchJson` / `extract_cloudinary_urls` embed `extract_cloudinary_urls`;
* `guessType` embeds `_guess_type`;
* `downloadOne` / `downloadAllFrom` embed the download loop of
  `generate_report`, with the network modelled as an oracle in `Env`;
* `extract_text_from_pdf`, `fileFragments`, `extract_text_from_files`
  embed the extraction step;
* `analyze_with_openai` and `generate_report` embed the two-stage
  synthesis orchestration and report assembly, with the generative
  service and the JSON parser (`json.loads`) as oracles in `Env`.
-/

/-- JSON-like values: the shape of the patient registration record and of
the parsed Stage 2 output. -/
inductive Json where
  | null : Json
  | bool : Bool → Json
  | num : Int → Json
  | str : String → Json
  | arr : List Json → Json
  | obj : List (String × Json) → Json

/-- Boolean substring test on character lists: `containsSub pat s` is true
iff `pat` occurs contiguously inside `s` (Python `pat in s`). -/
def containsSub (pat : List Char) : List Char → Bool
  | [] => pat.isEmpty
  | c :: rest => pat.isPrefixOf (c :: rest) || containsSub pat rest

/-- The hosting-provider test of `extract_cloudinary_urls` (line 56):
a case-sensitive substring check for "cloudinary.com". -/
def containsCloudinaryB (s : String) : Bool :=
  containsSub ("cloudinary.com".data) s.data

/-- PDF markers checked by `_guess_type` (line 68). -/
def pdfMarkers : List (List Char) := [".pdf".data, "/pdf/".data]

/-- Image markers checked by `_guess_type` (line 70). -/
def imageMarkers : List (List Char) :=
  [".jpg".data, ".jpeg".data, ".png".data, ".gif".data, ".webp".data, "/image/".data]

/-- True iff some marker of `ms` occurs in `u`. -/
def hasMarker (ms : List (List Char)) (u : List Char) : Bool :=
  ms.any (fun m => containsSub m u)

/-- Characters of `s` lowercased, embedding Python `url.lower()`. -/
def lowerChars (s : String) : List Char := s.data.map Char.toLower

/-- Embeds `_guess_type` (lines 66-72): lowercase the URL, then return
"pdf" on a PDF marker, else "image" on an image marker, else "unknown". -/
def guessType (url : String) : String :=
  let u := lowerChars url
  if hasMarker pdfMarkers u then "pdf"
  else if hasMarker imageMarkers u then "image"
  else "unknown"

/-- An asset reference produced by the resolver: the dict
`{url, field, type}` appended at line 57-61. -/
structure AssetRef where
  url : String
  field : String
  type : String
deriving DecidableEq, Repr

/-- Path extension for a map key (line 51):
`new_path = f"{path}.{k}" if path else k`. -/
def joinPath (path k : String) : String :=
  if path == "" then k else path ++ "." ++ k

/-- Path extension for a sequence index (line 55): `f"{path}[{i}]"`. -/
def idxPath (path : String) (i : Nat) : String :=
  path ++ "[" ++ toString i ++ "]"

mutual
/-- Embeds the inner `search` of `extract_cloudinary_urls` (lines 48-61):
depth-first walk appending one reference per matching string leaf. -/
def searchJson : Json → String → List AssetRef
  | .null, _ => []
  | .bool _, _ => []
  | .num _, _ => []
  | .str s, path =>
      if containsCloudinaryB s then [⟨s, path, guessType s⟩] else []
  | .arr xs, path => searchArr xs path 0
  | .obj kvs, path => searchObj kvs path

/-- The dict branch of `search` (lines 49-52). -/
def searchObj : List (String × Json) → String → List AssetRef
  | [], _ => []
  | (k, v) :: rest, path => searchJson v (joinPath path k) ++ searchObj rest path

/-- The list branch of `search` (lines 53-55). -/
def searchArr : List Json → String → Nat → List AssetRef
  | [], _, _ => []
  | x :: rest, path, i => searchJson x (idxPath path i) ++ searchArr rest path (i + 1)
end

/-- Embeds `extract_cloudinary_urls` (lines 44-64): the search starts at
the root with the empty path. -/
def extract_cloudinary_urls (data : Json) : List AssetRef :=
  searchJson data ""

mutual
/-- Number of string leaves of a `Json` value matching the
hosting-provider pattern. -/
def countJson : Json → Nat
  | .null => 0
  | .bool _ => 0
  | .num _ => 0
  | .str s => if containsCloudinaryB s then 1 else 0
  | .arr xs => countArr xs
  | .obj kvs => countObj kvs

/-- Matching-leaf count of an object's entries. -/
def countObj : List (String × Json) → Nat
  | [] => 0
  | (_, v) :: rest => countJson v + countObj rest

/-- Matching-leaf count of an array's entries. -/
def countArr : List Json → Nat
  | [] => 0
  | x :: rest => countJson x + countArr rest
end

/-- A downloaded-file record of the loop in `generate_report`
(lines 921-930): the reference dict plus `path` (set on success) and
`error` (set on failure). -/
structure FileRec where
  url : String
  field : String
  type : String
  path : Option String
  error : Option String
deriving DecidableEq, Repr

/-- One entry of the final report's `files_analyzed` list (lines 937-944). -/
structure FileEntry where
  field : String
  url : String
  type : String
  status : String
deriving DecidableEq, Repr

/-- The report dict assembled by `generate_report` (lines 934-948). -/
structure Report where
  patient_id : String
  medical_analysis : Json
  files_analyzed : List FileEntry
  generation_timestamp : String
  report_type : String
  analysis_method : String

/-- The pipeline's external collaborators, modelled as oracles: the
registration source (`fetch_patient_data`), the asset hosts
(`download_file`), the optional PyPDF2 and OCR backends, the two
generative-model calls of `analyze_with_openai`, the JSON parser
(`json.loads`), and the clock (`datetime.now`).  Failures that Python
raises as exceptions are `Except.error` values. -/
structure Env where
  fetchPatient : String → Except String Json
  download : String → String → Except String String
  pdfBackend : Option (String → Except String (List String))
  ocrBackend : Option (String → Except String String)
  stage1 : Json → String → List String → Except String String
  stage2 : String → Json → Except String String
  parse : String → Except String Json
  now : String

/-- The filename built at line 924:
`f"{u['field'].replace('.', '_')}_{i}.{u['type']}"`. -/
def mkFilename (field : String) (i : Nat) (ty : String) : String :=
  String.mk (field.data.map (fun c => if c == '.' then '_' else c))
    ++ "_" ++ toString i ++ "." ++ ty

/-- One iteration of the download loop (lines 925-930): on success the
record gets the path and no error; on a caught exception it gets
`path = None` and the error string. -/
def downloadOne (env : Env) (i : Nat) (u : AssetRef) : FileRec :=
  match env.download u.url (mkFilename u.field i u.type) with
  | .ok p => ⟨u.url, u.field, u.type, some p, none⟩
  | .error e => ⟨u.url, u.field, u.type, none, some e⟩

/-- The download loop over `enumerate(urls)` starting at index `i`
(line 923). -/
def downloadAllFrom (env : Env) (i : Nat) : List AssetRef → List FileRec
  | [] => []
  | u :: rest => downloadOne env i u :: downloadAllFrom env (i + 1) rest

/-- All downloads of one run, in reference order (lines 921-930). -/
def downloadAll (env : Env) (urls : List AssetRef) : List FileRec :=
  downloadAllFrom env 0 urls

/-- Embeds `extract_text_from_pdf` (lines 90-107): empty string when the
PyPDF2 backend is absent, page texts each followed by a newline on
success, and empty string when the reader raises. -/
def extract_text_from_pdf (env : Env) (p : String) : String :=
  match env.pdfBackend with
  | none => ""
  | some reader =>
      match reader p with
      | .ok pages => String.join (pages.map (fun t => t ++ "\n"))
      | .error _ => ""

/-- The OCR text obtained for an image (lines 120-125): empty when the
backend is absent or the recognizer raises. -/
def ocrText (env : Env) (p : String) : String :=
  match env.ocrBackend with
  | none => ""
  | some o => match o p with | .ok t => t | .error _ => ""

/-- The fragments one file contributes to the loop body of
`extract_text_from_files` (lines 113-135): a PDF with non-blank text
contributes its text (and otherwise nothing), an image contributes OCR
text or a placeholder note, any other file with a path contributes a
generic note, and a file without a path contributes nothing. -/
def fileFragments (env : Env) (f : FileRec) : List String :=
  if f.type == "pdf" && f.path.isSome then
    let text := extract_text_from_pdf env (f.path.getD "")
    if text != "" && text.trim != "" then
      ["--- Text from " ++ f.field ++ " (PDF) ---\n" ++ text]
    else []
  else if f.type == "image" && f.path.isSome then
    let t := ocrText env (f.path.getD "")
    if t != "" && t.trim != "" then
      ["--- OCR text from " ++ f.field ++ " (IMAGE) ---\n" ++ t]
    else
      ["--- Image file included: " ++ f.field ++ " (OCR not available) ---"]
  else if f.path.isSome then
    ["--- File included: " ++ f.field ++ " (type: " ++ f.type ++ ") ---"]
  else []

/-- The `extracted_texts` list accumulated by the loop of
`extract_text_from_files` (lines 111-135). -/
def extractFragments (env : Env) : List FileRec → List String
  | [] => []
  | f :: rest => fileFragments env f ++ extractFragments env rest

/-- Embeds `extract_text_from_files` (lines 109-137):
`"\n".join(extracted_texts)`. -/
def extract_text_from_files (env : Env) (files : List FileRec) : String :=
  String.intercalate "\n" (extractFragments env files)

/-- The image paths attached to the Stage 1 message (lines 246-253):
every file with `type == 'image'` and a truthy path. -/
def imagesAttached (files : List FileRec) : List String :=
  (files.filter (fun f => f.type == "image" && f.path.isSome)).filterMap
    (fun f => f.path)

/-- Embeds `analyze_with_openai` (lines 189-809): extract text from the
files, run Stage 1 (with the patient record, the concatenated text, and
the attached images), run Stage 2 on Stage 1's output and the patient
record, and parse Stage 2's content with `json.loads`; any raising step
propagates as an error. -/
def analyze_with_openai (env : Env) (patient : Json) (files : List FileRec) :
    Except String Json :=
  match env.stage1 patient (extract_text_from_files env files) (imagesAttached files) with
  | .error e => .error e
  | .ok extractedData =>
      match env.stage2 extractedData patient with
      | .error e => .error e
      | .ok content => env.parse content

/-- Embeds `generate_report` (lines 917-950): fetch the patient record,
resolve references, download each (failures caught per asset), analyze,
and assemble the final report dict. -/
def generate_report (env : Env) (user_id : String) : Except String Report :=
  match env.fetchPatient user_id with
  | .error e => .error e
  | .ok patient =>
      let urls := extract_cloudinary_urls patient
      let files := downloadAll env urls
      match analyze_with_openai env patient files with
      | .error e => .error e
      | .ok analysis =>
          .ok { patient_id := user_id
                medical_analysis := analysis
                files_analyzed := files.map (fun f =>
                  ⟨f.field, f.url, f.type,
                   if f.path.isSome then "processed" else "error"⟩)
                generation_timestamp := env.now
                report_type := "comprehensive_medical_analysis"
                analysis_method := "hybrid_dynamic_structure" }

/-- Whether a parsed JSON object has key `k` at top level. -/
def hasKey (j : Json) (k : String) : Bool :=
  match j with
  | .obj kvs => kvs.any (fun kv => kv.1 == k)
  | _ => false

/-- The mandatory core keys of the Stage 2 schema (spec §3
`SynthesisOutput`; prompt skeleton lines 277-732). -/
def mandatoryKeys : List String :=
  ["patient_info", "examination_findings", "risk_stratification",
   "key_calculations", "individualized_diet_plan",
   "exercise_physiotherapy_plan", "management_advice_triggers",
   "red_flags_emergency_return", "follow_up_plan",
   "integrated_report_summary"]

/-- Whether every mandatory core key is present. -/
def hasAllMandatory (j : Json) : Bool :=
  mandatoryKeys.all (hasKey j)

/-- The `medical_analysis` of a report result, when the run succeeded. -/
def analysisOf : Except String Report → Option Json
  | .ok r => some r.medical_analysis
  | .error _ => none

/-- The `files_analyzed` of a report result, when the run succeeded. -/
def filesAnalyzedOf : Except String Report → Option (List FileEntry)
  | .ok r => some r.files_analyzed
  | .error _ => none

theorem prefix_map (f : Char → Char) (p s : List Char) (h : p <+: s) :
    p.map f <+: s.map f := by
  obtain ⟨t, rfl⟩ := h
  exact ⟨t.map f, (List.map_append f p t).symm⟩

theorem containsSub_map (f : Char → Char) :
    ∀ (pat s : List Char), containsSub pat s = true →
      containsSub (pat.map f) (s.map f) = true
  | pat, [], h => by
      simp [containsSub] at h
      simp [containsSub, h]
  | pat, c :: rest, h => by
      simp [containsSub] at h
      rcases h with h | h
      · have := prefix_map f pat (c :: rest) h
        simp at this
        simp [containsSub, this]
      · simp [containsSub, containsSub_map f pat rest h]

mutual
theorem searchJson_length : ∀ (j : Json) (path : String),
    (searchJson j path).length = countJson j
  | .null, _ => by simp [searchJson, countJson]
  | .bool _, _ => by simp [searchJson, countJson]
  | .num _, _ => by simp [searchJson, countJson]
  | .str s, path => by
      cases h : containsCloudinaryB s <;> simp [searchJson, countJson, h]
  | .arr xs, path => by
      simpa [searchJson, countJson] using searchArr_length xs path 0
  | .obj kvs, path => by
      simpa [searchJson, countJson] using searchObj_length kvs path

theorem searchObj_length : ∀ (kvs : List (String × Json)) (path : String),
    (searchObj kvs path).length = countObj kvs
  | [], _ => by simp [searchObj, countObj]
  | (k, v) :: rest, path => by
      simp [searchObj, countObj, searchJson_length v (joinPath path k),
            searchObj_length rest path]

theorem searchArr_length : ∀ (xs : List Json) (path : String) (i : Nat),
    (searchArr xs path i).length = countArr xs
  | [], _, _ => by simp [searchArr, countArr]
  | x :: rest, path, i => by
      simp [searchArr, countArr, searchJson_length x (idxPath path i),
            searchArr_length rest path (i + 1)]
end

theorem downloadAllFrom_getElem? (env : Env) :
    ∀ (urls : List AssetRef) (i k : Nat),
      (downloadAllFrom env i urls)[k]? =
        (urls[k]?).map (fun u => downloadOne env (i + k) u)
  | [], i, k => by simp [downloadAllFrom]
  | u :: rest, i, 0 => by simp [downloadAllFrom]
  | u :: rest, i, k + 1 => by
      have harith : i + 1 + k = i + (k + 1) := by omega
      simp only [downloadAllFrom, List.getElem?_cons_succ,
                 downloadAllFrom_getElem? env rest (i + 1) k, harith]

theorem downloadAllFrom_map_ref (env : Env) :
    ∀ (i : Nat) (urls : List AssetRef),
      (downloadAllFrom env i urls).map (fun f => (f.field, f.url, f.type)) =
        urls.map (fun u => (u.field, u.url, u.type))
  | i, [] => by simp [downloadAllFrom]
  | i, u :: rest => by
      cases h : env.download u.url (mkFilename u.field i u.type) <;>
        simp [downloadAllFrom, downloadOne, h, downloadAllFrom_map_ref env (i + 1) rest]

theorem downloadAllFrom_length (env : Env) :
    ∀ (i : Nat) (urls : List AssetRef),
      (downloadAllFrom env i urls).length = urls.length
  | i, [] => by simp [downloadAllFrom]
  | i, u :: rest => by
      simp [downloadAllFrom, downloadAllFrom_length env (i + 1) rest]

theorem extractFragments_eq_flatten (env : Env) :
    ∀ (files : List FileRec),
      extractFragments env files = (files.map (fileFragments env)).flatten
  | [] => by simp [extractFragments]
  | f :: rest => by
      simp [extractFragments, extractFragments_eq_flatten env rest]

theorem generate_report_ok_inv (env : Env) (uid : String) (r : Report)
    (h : generate_report env uid = .ok r) :
    ∃ patient e1 e2,
      env.fetchPatient uid = .ok patient ∧
      env.stage1 patient
        (extract_text_from_files env
          (downloadAll env (extract_cloudinary_urls patient)))
        (imagesAttached (downloadAll env (extract_cloudinary_urls patient)))
          = .ok e1 ∧
      env.stage2 e1 patient = .ok e2 ∧
      env.parse e2 = .ok r.medical_analysis ∧
      r = { patient_id := uid
            medical_analysis := r.medical_analysis
            files_analyzed :=
              (downloadAll env (extract_cloudinary_urls patient)).map (fun f =>
                ⟨f.field, f.url, f.type,
                 if f.path.isSome then "processed" else "error"⟩)
            generation_timestamp := env.now
            report_type := "comprehensive_medical_analysis"
            analysis_method := "hybrid_dynamic_structure" } := by
  unfold generate_report at h
  cases hf : env.fetchPatient uid with
  | error e => rw [hf] at h; exact absurd h (by simp)
  | ok patient =>
    rw [hf] at h
    simp only at h
    unfold analyze_with_openai at h
    cases h1 : env.stage1 patient
        (extract_text_from_files env
          (downloadAll env (extract_cloudinary_urls patient)))
        (imagesAttached (downloadAll env (extract_cloudinary_urls patient))) with
    | error e => rw [h1] at h; exact absurd h (by simp)
    | ok e1 =>
      rw [h1] at h
      dsimp only at h
      cases h2 : env.stage2 e1 patient with
      | error e => rw [h2] at h; exact absurd h (by simp)
      | ok e2 =>
        rw [h2] at h
        dsimp only at h
        cases hp : env.parse e2 with
        | error e => rw [hp] at h; exact absurd h (by simp)
        | ok a =>
          rw [hp] at h
          dsimp only at h
          simp only [Except.ok.injEq] at h
          refine ⟨patient, e1, e2, rfl, h1, h2, ?_, ?_⟩
          · rw [← h]; exact hp
          · rw [← h]

example : guessType "https://cloudinary.com/a.PDF" = "pdf" := by decide
example : guessType "https://cloudinary.com/a.png" = "image" := by decide
example : guessType "https://cloudinary.com/a.txt" = "unknown" := by decide
example :
    extract_cloudinary_urls
      (Json.obj [("doc", Json.str "https://cloudinary.com/a.pdf"),
                 ("n", Json.num 3)])
      = [⟨"https://cloudinary.com/a.pdf", "doc", "pdf"⟩] := by decide

theorem mem_downloadAllFrom (env : Env) :
    ∀ (i : Nat) (urls : List AssetRef) (f : FileRec),
      f ∈ downloadAllFrom env i urls → ∃ k u, f = downloadOne env k u
  | i, [], f, h => absurd h (by simp [downloadAllFrom])
  | i, u :: rest, f, h => by
      simp only [downloadAllFrom, List.mem_cons] at h
      rcases h with h | h
      · exact ⟨i, u, h⟩
      · exact mem_downloadAllFrom env (i + 1) rest f h

/-- C3: every record produced by the download loop of `generate_report` has
exactly one of `path` / `error` populated: on a successful download the
path is set and no error is recorded, on a failed download the path is
`none` and the exception string is recorded - never both, never neither. -/
theorem claim_C3 :
    (∀ (env : Env) (urls : List AssetRef) (f : FileRec),
      f ∈ downloadAll env urls →
        (f.path.isSome = true ∧ f.error = none) ∨
        (f.path = none ∧ f.error.isSome = true)) ∧
    (∀ (env : Env) (i : Nat) (u : AssetRef),
      (∀ p, env.download u.url (mkFilename u.field i u.type) = .ok p →
        downloadOne env i u = ⟨u.url, u.field, u.type, some p, none⟩) ∧
      (∀ e, env.download u.url (mkFilename u.field i u.type) = .error e →
        downloadOne env i u = ⟨u.url, u.field, u.type, none, some e⟩)) := by
  constructor
  · intro env urls f hmem
    obtain ⟨k, u, rfl⟩ := mem_downloadAllFrom env 0 urls f hmem
    cases h : env.download u.url (mkFilename u.field k u.type) <;>
      simp [downloadOne, h]
  · intro env i u
    constructor
    · intro p hp; simp [downloadOne, hp]
    · intro e he; simp [downloadOne, he]

def c3Env : Env where
  fetchPatient := fun _ => .ok Json.null
  download := fun _ _ => .ok "temp_medical_files/doc_0.pdf"
  pdfBackend := none
  ocrBackend := none
  stage1 := fun _ _ _ => .ok "E1"
  stage2 := fun _ _ => .ok "S2"
  parse := fun _ => .error "Expecting value: line 1 column 1 (char 0)"
  now := "2025-01-01T00:00:00"

def c3Ref : AssetRef := ⟨"https://cloudinary.com/doc.pdf", "doc", "pdf"⟩

theorem claim_C3_witness :
    ((⟨"https://cloudinary.com/doc.pdf", "doc", "pdf",
       some "temp_medical_files/doc_0.pdf", none⟩ : FileRec)
        ∈ downloadAll c3Env [c3Ref]) ∧
    (((⟨"https://cloudinary.com/doc.pdf", "doc", "pdf",
        some "temp_medical_files/doc_0.pdf", none⟩ : FileRec).path.isSome = true ∧
      (⟨"https://cloudinary.com/doc.pdf", "doc", "pdf",
        some "temp_medical_files/doc_0.pdf", none⟩ : FileRec).error = none) ∨
     ((⟨"https://cloudinary.com/doc.pdf", "doc", "pdf",
        some "temp_medical_files/doc_0.pdf", none⟩ : FileRec).path = none ∧
      (⟨"https://cloudinary.com/doc.pdf", "doc", "pdf",
        some "temp_medical_files/doc_0.pdf", none⟩ : FileRec).error.isSome = true)) :=
  ⟨by decide, claim_C3.1 c3Env [c3Ref] _ (by decide)⟩

/-- C7: `_guess_type` returns "pdf" when the lowercased URL contains a PDF
marker, "image" when it contains no PDF marker but an image marker, and
"unknown" when it contains neither. -/
theorem claim_C7 (url : String) :
    (hasMarker pdfMarkers (lowerChars url) = true → guessType url = "pdf") ∧
    (hasMarker pdfMarkers (lowerChars url) = false →
      hasMarker imageMarkers (lowerChars url) = true → guessType url = "image") ∧
    (hasMarker pdfMarkers (lowerChars url) = false →
      hasMarker imageMarkers (lowerChars url) = false →
        guessType url = "unknown") := by
  refine ⟨fun h => ?_, fun h1 h2 => ?_, fun h1 h2 => ?_⟩ <;>
    simp_all [guessType]

theorem claim_C7_witness :
    guessType "https://h.example/scan.pdf" = "pdf" ∧
    guessType "https://h.example/scan.png" = "image" ∧
    guessType "https://h.example/scan.txt" = "unknown" :=
  ⟨(claim_C7 _).1 (by decide),
   (claim_C7 _).2.1 (by decide) (by decide),
   (claim_C7 _).2.2 (by decide) (by decide)⟩

/-- C9: PDF markers are checked before image markers on the lowercased URL,
so any URL containing ".pdf" (in any letter case) is classified "pdf" no
matter which image markers it also contains. -/
theorem claim_C9 (url : String) :
    (containsSub (".pdf".data) url.data = true → guessType url = "pdf") ∧
    (containsSub (".PDF".data) url.data = true → guessType url = "pdf") := by
  constructor
  · intro h
    have hm := containsSub_map Char.toLower (".pdf".data) url.data h
    have hpat : (".pdf".data).map Char.toLower = ".pdf".data := by decide
    rw [hpat] at hm
    have : hasMarker pdfMarkers (lowerChars url) = true := by
      simp only [hasMarker, pdfMarkers, List.any_cons, Bool.or_eq_true]
      exact Or.inl hm
    simp [guessType, this]
  · intro h
    have hm := containsSub_map Char.toLower (".PDF".data) url.data h
    have hpat : (".PDF".data).map Char.toLower = ".pdf".data := by decide
    rw [hpat] at hm
    have : hasMarker pdfMarkers (lowerChars url) = true := by
      simp only [hasMarker, pdfMarkers, List.any_cons, Bool.or_eq_true]
      exact Or.inl hm
    simp [guessType, this]

theorem claim_C9_witness :
    guessType "https://cloudinary.com/image/upload/scan.PDF" = "pdf" ∧
    guessType "https://cloudinary.com/a.pdf.png" = "pdf" :=
  ⟨(claim_C9 _).2 (by decide), (claim_C9 _).1 (by decide)⟩

/-- C10: the resolver's hosting-provider test is a bare case-sensitive
substring check for "cloudinary.com": a string leaf containing it yields
exactly one reference (well-formed URL or not, at any depth), other string
leaves yield none, and non-string scalars never yield a reference. -/
theorem claim_C10 :
    (∀ (s path : String), containsCloudinaryB s = true →
      searchJson (Json.str s) path = [⟨s, path, guessType s⟩]) ∧
    (∀ (s path : String), containsCloudinaryB s = false →
      searchJson (Json.str s) path = []) ∧
    (∀ (path : String) (n : Int) (b : Bool),
      searchJson Json.null path = [] ∧ searchJson (Json.num n) path = [] ∧
      searchJson (Json.bool b) path = []) ∧
    containsCloudinaryB "https://res.CLOUDINARY.com/raw/upload/v1/x" = false ∧
    containsCloudinaryB "not a url but cloudinary.com appears" = true ∧
    extract_cloudinary_urls
      (Json.obj [("outer",
        Json.arr [Json.obj [("inner", Json.str "text cloudinary.com here")]])])
      = [⟨"text cloudinary.com here", "outer[0].inner", "unknown"⟩] := by
  refine ⟨fun s path h => ?_, fun s path h => ?_, fun path n b => ?_,
          by decide, by decide, by decide⟩
  · simp [searchJson, h]
  · simp [searchJson, h]
  · simp [searchJson]

theorem claim_C10_witness :
    searchJson (Json.str "x cloudinary.com y") "f" =
      [⟨"x cloudinary.com y", "f", "unknown"⟩] :=
  claim_C10.1 "x cloudinary.com y" "f" (by decide)

def c6Data : Json :=
  Json.obj [("a[0]", Json.str "https://cloudinary.com/x"),
            ("a", Json.arr [Json.str "https://cloudinary.com/y"])]

/-- C6 counterexample: two distinct string leaves of `c6Data` - the value
of the key literally named "a[0]", and element 0 of the array under key
"a" - both receive the field path "a[0]", so a reference's `field_path`
does not uniquely identify the leaf's position in the input. -/
theorem claim_C6_counterexample :
    (extract_cloudinary_urls c6Data).map (fun r => r.field) = ["a[0]", "a[0]"] ∧
    (extract_cloudinary_urls c6Data).map (fun r => r.url) =
      ["https://cloudinary.com/x", "https://cloudinary.com/y"] := by
  decide

/-- C6 (amended): for every acyclic nested structure the resolver returns
one reference per string leaf matching the hosting-provider pattern (so
zero matches yields an empty sequence); `field_path` is built by
dot-joining map keys and bracket-indexing sequence positions but need not
uniquely identify the leaf's position when keys themselves contain dots or
bracketed indices. -/
theorem claim_C6 :
    (∀ (j : Json) (path : String), (searchJson j path).length = countJson j) ∧
    (∀ j : Json, countJson j = 0 → extract_cloudinary_urls j = []) := by
  refine ⟨fun j path => searchJson_length j path, fun j h => ?_⟩
  have := searchJson_length j ""
  rw [h] at this
  exact List.length_eq_zero.mp this

theorem claim_C6_witness :
    countJson (Json.obj [("k", Json.str "no reference"), ("n", Json.num 5)]) = 0 ∧
    extract_cloudinary_urls
      (Json.obj [("k", Json.str "no reference"), ("n", Json.num 5)]) = [] :=
  ⟨by decide, claim_C6.2 _ (by decide)⟩

def c2Env : Env where
  fetchPatient := fun _ => .ok Json.null
  download := fun _ _ => .ok "temp_medical_files/report_0.pdf"
  pdfBackend := some (fun _ => .error "EOF marker not found")
  ocrBackend := none
  stage1 := fun _ _ _ => .ok "E1"
  stage2 := fun _ _ => .ok "S2"
  parse := fun _ => .error "Expecting value: line 1 column 1 (char 0)"
  now := "2025-01-01T00:00:00"

def c2File : FileRec :=
  ⟨"https://cloudinary.com/report.pdf", "report", "pdf",
   some "temp_medical_files/report_0.pdf", none⟩

/-- C2 counterexample: a PDF asset with a local path whose text extraction
raises (so `extract_text_from_pdf` returns "") contributes no fragment at
all to the extraction text - it is silently dropped, with no note
placeholder, contradicting the claim that a fragment is always emitted. -/
theorem claim_C2_counterexample :
    fileFragments c2Env c2File = [] ∧
    extract_text_from_files c2Env [c2File] = "" := by
  decide

/-- C2 (amended): extraction is total and never raises; an image asset with
a path whose OCR yields nothing (backend missing or failed) still emits the
"OCR not available" note fragment, an asset of any other non-PDF kind with
a path emits a generic note fragment, but a PDF asset whose extraction
fails or yields blank text contributes no fragment and is silently
dropped. -/
theorem claim_C2 (env : Env) (f : FileRec) (p : String)
    (hpath : f.path = some p) :
    (f.type = "image" → ocrText env p = "" →
      fileFragments env f =
        ["--- Image file included: " ++ f.field ++ " (OCR not available) ---"]) ∧
    (f.type ≠ "pdf" → f.type ≠ "image" →
      fileFragments env f =
        ["--- File included: " ++ f.field ++ " (type: " ++ f.type ++ ") ---"]) ∧
    (f.type = "pdf" → (extract_text_from_pdf env p).trim = "" →
      fileFragments env f = []) := by
  obtain ⟨furl, ffield, ftype, fpath, ferr⟩ := f
  simp only at hpath
  subst hpath
  refine ⟨fun ht hocr => ?_, fun ht1 ht2 => ?_, fun ht hpdf => ?_⟩
  · simp only at ht
    subst ht
    simp [fileFragments, hocr]
  · simp only at ht1 ht2
    simp [fileFragments, ht1, ht2]
  · simp only at ht
    subst ht
    by_cases he : extract_text_from_pdf env p = ""
    · simp [fileFragments, he]
    · simp [fileFragments, he, hpdf]

def c2ImgFile : FileRec :=
  ⟨"https://cloudinary.com/scan.jpg", "scan", "image",
   some "temp_medical_files/scan_1.image", none⟩

theorem claim_C2_witness :
    fileFragments c2Env c2ImgFile =
      ["--- Image file included: scan (OCR not available) ---"] :=
  (claim_C2 c2Env c2ImgFile "temp_medical_files/scan_1.image" rfl).1
    rfl (by decide)

def c1Env : Env where
  fetchPatient := fun _ => .ok (Json.obj [])
  download := fun _ _ => .error "no network"
  pdfBackend := none
  ocrBackend := none
  stage1 := fun _ _ _ => .ok "E1"
  stage2 := fun _ _ => .ok "\x7b\x7d"
  parse := fun s =>
    if s == "\x7b\x7d" then .ok (Json.obj [])
    else .error "Expecting value: line 1 column 1 (char 0)"
  now := "2025-01-01T00:00:00"

/-- C1 counterexample: when the Stage 2 service returns the valid JSON
object text whose parse is the empty object, `generate_report` still
succeeds and the returned `medical_analysis` omits every mandatory core
key - the code never enforces their presence. -/
theorem claim_C1_counterexample :
    filesAnalyzedOf (generate_report c1Env "user-1") = some [] ∧
    (analysisOf (generate_report c1Env "user-1")).map
      (fun j => hasKey j "patient_info") = some false ∧
    (analysisOf (generate_report c1Env "user-1")).map hasAllMandatory
      = some false := by
  decide

/-- C1 (amended): for every successful run of `generate_report`, the
`medical_analysis` of the returned report is exactly the JSON object
parsed from the Stage 2 response, passed through unmodified; mandatory
core keys appear only when that object itself contains them. -/
theorem claim_C1 (env : Env) (uid : String) (r : Report)
    (h : generate_report env uid = .ok r) :
    ∃ patient e1 e2,
      env.fetchPatient uid = .ok patient ∧
      env.stage1 patient
        (extract_text_from_files env
          (downloadAll env (extract_cloudinary_urls patient)))
        (imagesAttached (downloadAll env (extract_cloudinary_urls patient)))
          = .ok e1 ∧
      env.stage2 e1 patient = .ok e2 ∧
      env.parse e2 = .ok r.medical_analysis := by
  obtain ⟨patient, e1, e2, hf, h1, h2, hp, _⟩ :=
    generate_report_ok_inv env uid r h
  exact ⟨patient, e1, e2, hf, h1, h2, hp⟩

def c1Report : Report :=
  ⟨"user-1", Json.obj [], [], "2025-01-01T00:00:00",
   "comprehensive_medical_analysis", "hybrid_dynamic_structure"⟩

theorem claim_C1_witness :
    ∃ patient e1 e2,
      c1Env.fetchPatient "user-1" = .ok patient ∧
      c1Env.stage1 patient
        (extract_text_from_files c1Env
          (downloadAll c1Env (extract_cloudinary_urls patient)))
        (imagesAttached (downloadAll c1Env (extract_cloudinary_urls patient)))
          = .ok e1 ∧
      c1Env.stage2 e1 patient = .ok e2 ∧
      c1Env.parse e2 = .ok c1Report.medical_analysis :=
  claim_C1 c1Env "user-1" c1Report rfl

/-- C5: when the registration fetch and both generative stages succeed but
the Stage 2 payload fails to parse as JSON, `generate_report` fails with
the parser's error and assembles no report at all. -/
theorem claim_C5 (env : Env) (uid : String) (patient : Json)
    (e1 e2 err : String)
    (hf : env.fetchPatient uid = .ok patient)
    (h1 : env.stage1 patient
      (extract_text_from_files env
        (downloadAll env (extract_cloudinary_urls patient)))
      (imagesAttached (downloadAll env (extract_cloudinary_urls patient)))
        = .ok e1)
    (h2 : env.stage2 e1 patient = .ok e2)
    (hp : env.parse e2 = .error err) :
    generate_report env uid = .error err := by
  unfold generate_report analyze_with_openai
  rw [hf]
  dsimp only
  rw [h1]
  dsimp only
  rw [h2]
  dsimp only
  rw [hp]

def c5Env : Env where
  fetchPatient := fun _ => .ok (Json.obj [])
  download := fun _ _ => .error "no network"
  pdfBackend := none
  ocrBackend := none
  stage1 := fun _ _ _ => .ok "E1"
  stage2 := fun _ _ => .ok "truncated stage-2 payload"
  parse := fun _ => .error "Unterminated string starting at: line 1 column 2 (char 1)"
  now := "2025-01-01T00:00:00"

theorem claim_C5_witness :
    generate_report c5Env "user-5" =
      .error "Unterminated string starting at: line 1 column 2 (char 1)" :=
  claim_C5 c5Env "user-5" (Json.obj []) "E1" "truncated stage-2 payload"
    "Unterminated string starting at: line 1 column 2 (char 1)"
    rfl rfl rfl rfl

/-- C4: a failed download (timeout, bad status, I-O error) does not abort
`generate_report`: the failure is caught for that asset alone, the asset
shows up in `files_analyzed` with status "error", its record contributes
no fragment to the extraction text fed to Stage 1, all references keep
their slot in the result, and the request still yields a report. -/
theorem claim_C4 (env : Env) (uid : String) (patient : Json) (i : Nat)
    (u : AssetRef) (e e1 e2 : String) (a : Json)
    (hf : env.fetchPatient uid = .ok patient)
    (hu : (extract_cloudinary_urls patient)[i]? = some u)
    (hd : env.download u.url (mkFilename u.field i u.type) = .error e)
    (h1 : env.stage1 patient
      (extract_text_from_files env
        (downloadAll env (extract_cloudinary_urls patient)))
      (imagesAttached (downloadAll env (extract_cloudinary_urls patient)))
        = .ok e1)
    (h2 : env.stage2 e1 patient = .ok e2)
    (hp : env.parse e2 = .ok a) :
    ∃ r, generate_report env uid = .ok r ∧
      r.medical_analysis = a ∧
      r.files_analyzed.length = (extract_cloudinary_urls patient).length ∧
      r.files_analyzed[i]? = some ⟨u.field, u.url, u.type, "error"⟩ ∧
      (downloadAll env (extract_cloudinary_urls patient))[i]? =
        some ⟨u.url, u.field, u.type, none, some e⟩ ∧
      fileFragments env ⟨u.url, u.field, u.type, none, some e⟩ = [] := by
  have hfile : (downloadAll env (extract_cloudinary_urls patient))[i]? =
      some ⟨u.url, u.field, u.type, none, some e⟩ := by
    rw [downloadAll, downloadAllFrom_getElem? env (extract_cloudinary_urls patient) 0 i, hu]
    simp [downloadOne, hd]
  have hgen : generate_report env uid = .ok
      { patient_id := uid
        medical_analysis := a
        files_analyzed :=
          (downloadAll env (extract_cloudinary_urls patient)).map (fun f =>
            ⟨f.field, f.url, f.type,
             if f.path.isSome then "processed" else "error"⟩)
        generation_timestamp := env.now
        report_type := "comprehensive_medical_analysis"
        analysis_method := "hybrid_dynamic_structure" } := by
    unfold generate_report analyze_with_openai
    rw [hf]
    dsimp only
    rw [h1]
    dsimp only
    rw [h2]
    dsimp only
    rw [hp]
  refine ⟨_, hgen, rfl, ?_, ?_, hfile, ?_⟩
  · simp [downloadAll, downloadAllFrom_length]
  · rw [List.getElem?_map, hfile]
    rfl
  · simp [fileFragments]

def c4Env : Env where
  fetchPatient := fun _ =>
    .ok (Json.obj [("doc", Json.str "https://cloudinary.com/a.pdf")])
  download := fun _ _ => .error "Cannot connect to host"
  pdfBackend := none
  ocrBackend := none
  stage1 := fun _ _ _ => .ok "E1"
  stage2 := fun _ _ => .ok "S2"
  parse := fun s =>
    if s == "S2" then .ok (Json.obj [("patient_info", Json.null)])
    else .error "Expecting value: line 1 column 1 (char 0)"
  now := "2025-01-03T00:00:00"

theorem claim_C4_witness :
    ∃ r, generate_report c4Env "user-4" = .ok r ∧
      r.medical_analysis = Json.obj [("patient_info", Json.null)] ∧
      r.files_analyzed.length =
        (extract_cloudinary_urls
          (Json.obj [("doc", Json.str "https://cloudinary.com/a.pdf")])).length ∧
      r.files_analyzed[0]? =
        some ⟨"doc", "https://cloudinary.com/a.pdf", "pdf", "error"⟩ ∧
      (downloadAll c4Env (extract_cloudinary_urls
          (Json.obj [("doc", Json.str "https://cloudinary.com/a.pdf")])))[0]? =
        some ⟨"https://cloudinary.com/a.pdf", "doc", "pdf", none,
              some "Cannot connect to host"⟩ ∧
      fileFragments c4Env ⟨"https://cloudinary.com/a.pdf", "doc", "pdf", none,
              some "Cannot connect to host"⟩ = [] :=
  claim_C4 c4Env "user-4"
    (Json.obj [("doc", Json.str "https://cloudinary.com/a.pdf")]) 0
    ⟨"https://cloudinary.com/a.pdf", "doc", "pdf"⟩
    "Cannot connect to host" "E1" "S2" (Json.obj [("patient_info", Json.null)])
    rfl (by decide) rfl rfl rfl rfl

/-- C8: for every successful run, `files_analyzed` lists the assets in
exactly the order and with the fields the resolver produced, and the text
shown to Stage 1 is the newline-join of the per-file fragment lists in
that same file order, whatever each download's outcome. -/
theorem claim_C8 (env : Env) (uid : String) (r : Report)
    (h : generate_report env uid = .ok r) :
    ∃ patient, env.fetchPatient uid = .ok patient ∧
      r.files_analyzed.map (fun x => (x.field, x.url, x.type)) =
        (extract_cloudinary_urls patient).map (fun v => (v.field, v.url, v.type)) ∧
      ∃ e1, env.stage1 patient
        (String.intercalate "\n"
          (((downloadAll env (extract_cloudinary_urls patient)).map
              (fileFragments env)).flatten))
        (imagesAttached (downloadAll env (extract_cloudinary_urls patient)))
          = .ok e1 := by
  obtain ⟨patient, e1, e2, hf, h1, h2, hp, hr⟩ :=
    generate_report_ok_inv env uid r h
  refine ⟨patient, hf, ?_, ⟨e1, ?_⟩⟩
  · rw [hr]
    simpa [downloadAll, List.map_map, Function.comp] using
      downloadAllFrom_map_ref env 0 (extract_cloudinary_urls patient)
  · rw [← extractFragments_eq_flatten env
        (downloadAll env (extract_cloudinary_urls patient))]
    exact h1

def c8Env : Env where
  fetchPatient := fun _ =>
    .ok (Json.obj [("doc", Json.str "https://cloudinary.com/a.pdf")])
  download := fun _ _ => .ok "temp_medical_files/doc_0.pdf"
  pdfBackend := some (fun _ => .ok ["hello"])
  ocrBackend := none
  stage1 := fun _ _ _ => .ok "E1"
  stage2 := fun _ _ => .ok "S2"
  parse := fun s =>
    if s == "S2" then .ok (Json.obj [("patient_info", Json.obj [])])
    else .error "Expecting value: line 1 column 1 (char 0)"
  now := "2025-01-02T00:00:00"

def c8Report : Report :=
  ⟨"user-8", Json.obj [("patient_info", Json.obj [])],
   [⟨"doc", "https://cloudinary.com/a.pdf", "pdf", "processed"⟩],
   "2025-01-02T00:00:00", "comprehensive_medical_analysis",
   "hybrid_dynamic_structure"⟩

theorem claim_C8_witness :
    ∃ patient, c8Env.fetchPatient "user-8" = .ok patient ∧
      c8Report.files_analyzed.map (fun x => (x.field, x.url, x.type)) =
        (extract_cloudinary_urls patient).map (fun v => (v.field, v.url, v.type)) ∧
      ∃ e1, c8Env.stage1 patient
        (String.intercalate "\n"
          (((downloadAll c8Env (extract_cloudinary_urls patient)).map
              (fileFragments c8Env)).flatten))
        (imagesAttached (downloadAll c8Env (extract_cloudinary_urls patient)))
          = .ok e1 :=
  claim_C8 c8Env "user-8" c8Report rfl
